import Mathlib

/-!
Verification of the IMGENIE model-serving core against its specification.

The definitions below are a shallow embedding of the relevant parts of the
repository (`imgenie_server.py`, `image_generator.py`, `image_describer.py`,
`image_generator_lora.py`).  Opaque backend operations (the diffusers
pipeline, the torch model) are modelled as parameters: a backend load is a
function from model id to an optional handle (`none` = load failure), a
backend run is an `Except` value.  Handles are natural numbers.
-/

/-- An HTTP-level response of the Flask endpoints: `ok` carries the success
message, `err` the error message (returned with a 4xx/5xx status). -/
inductive Resp
  | ok (msg : String)
  | err (msg : String)
deriving DecidableEq, Repr

/-- A backend event observable on the device: a pipeline handle is loaded
into device memory, or a pipeline handle is released. -/
inductive BEvent
  | load (h : Nat)
  | unload (h : Nat)
deriving DecidableEq, Repr

/-- Embedding of the `ImageGenerator` object state: `pipeline` is the loaded
diffusers pipeline handle, `none` when no pipeline is loaded (as set in
`__init__` and left unset when `load_model` fails). -/
structure ImageGenerator where
  pipeline : Option Nat
deriving DecidableEq, Repr

/-- Backend events emitted by `ImageGenerator.unload_model`
(image_generator.py:56-63): the pipeline handle is released iff one is
present; the method never raises from the slot's point of view. -/
def ImageGenerator.unloadEvents (g : ImageGenerator) : List BEvent :=
  match g.pipeline with
  | some h => [BEvent.unload h]
  | none => []

/-- The text-to-image slot of `ImgenieServer` (imgenie_server.py:45-48):
the current `ImageGenerator` object (or `none`) and the currently reported
model id `current_t2i_id`. -/
structure ImgenieT2ISlot where
  t2i_model : Option ImageGenerator
  current_t2i_id : Option String
deriving DecidableEq, Repr

/-- Embedding of the `/api/model/load` endpoint for the text-to-image task
(imgenie_server.py:228-340).  `cfg` is the set of configured model ids,
`backend` the opaque backend load (`none` = `ImageGenerator.load_model`
returns `False`).  Returns the new slot state, the HTTP response, and the
backend events emitted in order.  Mirrors the source exactly: unknown id is
rejected; a load of the already-current id is a no-op; otherwise the old
model (if any) is unloaded first, a fresh `ImageGenerator` (pipeline absent)
is installed, and the backend load is attempted; on failure the response is
the fixed string `Model load returned false` and `current_t2i_id` is left
unchanged. -/
def load_model_t2i (cfg : List String) (backend : String → Option Nat)
    (st : ImgenieT2ISlot) (mid : String) : ImgenieT2ISlot × Resp × List BEvent :=
  if mid ∉ cfg then
    (st, Resp.err ("Model " ++ mid ++ " not found"), [])
  else if st.current_t2i_id = some mid then
    (st, Resp.ok ("Model " ++ mid ++ " already loaded"), [])
  else
    let evs0 := match st.t2i_model with
      | some g => g.unloadEvents
      | none => []
    match backend mid with
    | some h =>
        (⟨some ⟨some h⟩, some mid⟩, Resp.ok ("Model " ++ mid ++ " loaded"),
         evs0 ++ [BEvent.load h])
    | none =>
        (⟨some ⟨none⟩, st.current_t2i_id⟩, Resp.err "Model load returned false", evs0)

/-- Run a sequence of load calls from a given slot state, concatenating the
emitted backend event traces. -/
def run_loads (cfg : List String) (backend : String → Option Nat) :
    ImgenieT2ISlot → List String → ImgenieT2ISlot × List BEvent
  | st, [] => (st, [])
  | st, m :: rest =>
      let r := load_model_t2i cfg backend st m
      let r2 := run_loads cfg backend r.1 rest
      (r2.1, r.2.2 ++ r2.2)

/-- Number of resident handles after one backend event, starting from `c`. -/
def resStep (c : Nat) : BEvent → Nat
  | BEvent.load _ => c + 1
  | BEvent.unload _ => c - 1

/-- Number of resident handles after a trace of backend events. -/
def resCount (c : Nat) (evs : List BEvent) : Nat := evs.foldl resStep c

/-- `resBounded c evs` holds when, starting from `c` resident handles, the
resident count stays at most 1 at every point of the trace `evs`
(including before the first and after the last event). -/
def resBounded (c : Nat) : List BEvent → Bool
  | [] => decide (c ≤ 1)
  | e :: rest => decide (c ≤ 1) && resBounded (resStep c e) rest

/-- Resident handle count represented by a slot state: 1 iff the current
model object holds a pipeline handle. -/
def slotCount (st : ImgenieT2ISlot) : Nat :=
  match st.t2i_model with
  | some g => match g.pipeline with
    | some _ => 1
    | none => 0
  | none => 0

theorem resCount_append (c : Nat) (a b : List BEvent) :
    resCount c (a ++ b) = resCount (resCount c a) b := by
  simp [resCount, List.foldl_append]

theorem resBounded_head (c : Nat) (b : List BEvent) :
    resBounded c b = (decide (c ≤ 1) && resBounded c b) := by
  cases b with
  | nil => simp [resBounded]
  | cons e rest =>
      simp only [resBounded, ← Bool.and_assoc, Bool.and_self]

theorem resBounded_append (c : Nat) (a b : List BEvent) :
    resBounded c (a ++ b) = (resBounded c a && resBounded (resCount c a) b) := by
  induction a generalizing c with
  | nil =>
      simp only [List.nil_append, resBounded, resCount, List.foldl_nil]
      exact resBounded_head c b
  | cons e rest ih =>
      simp only [List.cons_append, resBounded, resCount, List.foldl_cons, List.append_eq,
        ih, Bool.and_assoc]

theorem slotCount_le_one (st : ImgenieT2ISlot) : slotCount st ≤ 1 := by
  rcases st with ⟨m, cid⟩
  rcases m with _ | ⟨p⟩
  · simp [slotCount]
  · rcases p with _ | h <;> simp [slotCount]

/-- One load call keeps the resident count bounded by 1 throughout its
emitted trace, and the final trace count matches the resulting state. -/
theorem load_call_bounded (cfg : List String) (backend : String → Option Nat)
    (st : ImgenieT2ISlot) (mid : String) :
    resBounded (slotCount st) (load_model_t2i cfg backend st mid).2.2 = true ∧
    resCount (slotCount st) (load_model_t2i cfg backend st mid).2.2 =
      slotCount (load_model_t2i cfg backend st mid).1 := by
  rcases st with ⟨m, cid⟩
  unfold load_model_t2i
  by_cases hc : mid ∈ cfg
  · simp only [hc, not_true_eq_false, if_false]
    by_cases hid : cid = some mid
    · simp [hid, resBounded, resCount, slotCount_le_one]
    · simp only [ImgenieT2ISlot.current_t2i_id, hid, if_false]
      rcases m with _ | ⟨p⟩
      · cases backend mid with
        | some h =>
            simp [resBounded, resCount, resStep, slotCount]
        | none =>
            simp [resBounded, resCount, slotCount]
      · rcases p with _ | hdl
        · cases backend mid with
          | some h =>
              simp [resBounded, resCount, resStep, slotCount, ImageGenerator.unloadEvents]
          | none =>
              simp [resBounded, resCount, slotCount, ImageGenerator.unloadEvents]
        · cases backend mid with
          | some h =>
              simp [resBounded, resCount, resStep, slotCount, ImageGenerator.unloadEvents]
          | none =>
              simp [resBounded, resCount, resStep, slotCount, ImageGenerator.unloadEvents]
  · simp [hc, resBounded, resCount, slotCount_le_one]

/-- A sequence of load calls keeps the resident count bounded by 1
throughout the whole concatenated trace, with the final count matching the
final state. -/
theorem run_loads_bounded (cfg : List String) (backend : String → Option Nat)
    (mids : List String) (st : ImgenieT2ISlot) :
    resBounded (slotCount st) (run_loads cfg backend st mids).2 = true ∧
    resCount (slotCount st) (run_loads cfg backend st mids).2 =
      slotCount (run_loads cfg backend st mids).1 := by
  induction mids generalizing st with
  | nil =>
      simp [run_loads, resBounded, resCount, slotCount_le_one]
  | cons m rest ih =>
      have hcall := load_call_bounded cfg backend st m
      have hrest := ih (load_model_t2i cfg backend st m).1
      constructor
      · rw [run_loads, resBounded_append, hcall.1, Bool.true_and, hcall.2]
        exact hrest.1
      · rw [run_loads, resCount_append, hcall.2]
        exact hrest.2

/-- C1: For every sequence of load calls against the text-to-image slot,
starting from the empty slot, at most one backend handle is resident at
every point of the emitted backend event trace: the old handle is released
before a new one is loaded, so old and new handles are never held
simultaneously. -/
theorem c1_at_most_one_handle (cfg : List String) (backend : String → Option Nat)
    (mids : List String) :
    resBounded 0 (run_loads cfg backend ⟨none, none⟩ mids).2 = true := by
  have h := run_loads_bounded cfg backend mids ⟨none, none⟩
  have h0 : slotCount ⟨none, none⟩ = 0 := rfl
  rw [h0] at h
  exact h.1

/-- C2 counterexample: with configured models `A` and `B`, a backend that
loads `A` (handle 7) but fails on `B`, loading `A` and then `B` leaves the
slot reporting descriptor id `A` — not empty — after the failed load of
`B`, while the call returns the failure response.  This refutes the claim
that the slot reverts to Empty (reports no loaded descriptor id) after a
failed backend load. -/
theorem c2_load_failure_keeps_old_id :
    ((load_model_t2i ["A", "B"] (fun s => if s = "A" then some 7 else none)
        (load_model_t2i ["A", "B"] (fun s => if s = "A" then some 7 else none)
          ⟨none, none⟩ "A").1 "B").1.current_t2i_id = some "A") ∧
    ((load_model_t2i ["A", "B"] (fun s => if s = "A" then some 7 else none)
        (load_model_t2i ["A", "B"] (fun s => if s = "A" then some 7 else none)
          ⟨none, none⟩ "A").1 "B").2.1 = Resp.err "Model load returned false") ∧
    some "A" ≠ (none : Option String) := by
  refine ⟨rfl, rfl, by simp⟩

/-- C2 amended: for every load call whose backend load step fails (on a
configured, not-currently-reported model id), the slot is left with a fresh
model object holding no backend handle and the call returns the fixed error
`Model load returned false` (which does not carry the underlying cause);
the reported descriptor id keeps its previous value instead of reverting to
empty. -/
theorem c2_amended_load_failure (cfg : List String) (backend : String → Option Nat)
    (st : ImgenieT2ISlot) (mid : String)
    (h1 : mid ∈ cfg) (h2 : st.current_t2i_id ≠ some mid) (h3 : backend mid = none) :
    (load_model_t2i cfg backend st mid).1.t2i_model = some ⟨none⟩ ∧
    (load_model_t2i cfg backend st mid).1.current_t2i_id = st.current_t2i_id ∧
    (load_model_t2i cfg backend st mid).2.1 = Resp.err "Model load returned false" := by
  simp [load_model_t2i, h1, h2, h3]

/-- Witness for `c2_amended_load_failure` at a concrete input: configured
model `A`, failing backend, empty initial slot. -/
theorem c2_amended_load_failure_witness :
    (load_model_t2i ["A"] (fun _ => none) ⟨none, none⟩ "A").1.t2i_model = some ⟨none⟩ ∧
    (load_model_t2i ["A"] (fun _ => none) ⟨none, none⟩ "A").1.current_t2i_id = none ∧
    (load_model_t2i ["A"] (fun _ => none) ⟨none, none⟩ "A").2.1 =
      Resp.err "Model load returned false" :=
  c2_amended_load_failure ["A"] (fun _ => none) ⟨none, none⟩ "A"
    (by simp) (by simp) rfl

/-- Embedding of the `ImageDescriber` object (image_describer.py): the field
`i2t_model` models the Python instance attribute of the same name, which is
absent (`none`) until `load_model` succeeds — it is never set when
`AutoProcessor.from_pretrained` or the model load raises — and is deleted
again by `unload_model`.  Calling `unload_model` while the attribute is
absent raises `AttributeError` (image_describer.py:54-60 reads
`self.i2t_model` unconditionally). -/
structure ImageDescriber where
  i2t_model : Option Nat
deriving DecidableEq, Repr

/-- The image-to-text slot of `ImgenieServer`: the current `ImageDescriber`
object (or `none`) and the reported model id `current_i2t_id`. -/
structure ImgenieI2TSlot where
  i2t_model : Option ImageDescriber
  current_i2t_id : Option String
deriving DecidableEq, Repr

/-- Embedding of the `/api/model/load` endpoint for the image-to-text task
(imgenie_server.py:228-340, `else` branch): unknown id rejected; loading the
already-current id is a no-op; otherwise a fresh `ImageDescriber` is
installed and the backend load attempted.  On failure the describer's
`i2t_model` attribute is left absent and `current_i2t_id` keeps its previous
value. -/
def load_model_i2t (cfg : List String) (backend : String → Option Nat)
    (st : ImgenieI2TSlot) (mid : String) : ImgenieI2TSlot × Resp :=
  if mid ∉ cfg then
    (st, Resp.err ("Model " ++ mid ++ " not found"))
  else if st.current_i2t_id = some mid then
    (st, Resp.ok ("Model " ++ mid ++ " already loaded"))
  else
    match backend mid with
    | some h => (⟨some ⟨some h⟩, some mid⟩, Resp.ok ("Model " ++ mid ++ " loaded"))
    | none => (⟨some ⟨none⟩, st.current_i2t_id⟩, Resp.err "Model load returned false")

/-- Embedding of the `/api/model/unload` endpoint for the image-to-text task
(imgenie_server.py:343-364): if no describer object is present the call is a
no-op returning success; otherwise `ImageDescriber.unload_model` is invoked
inside the endpoint's `try` block — if the describer's `i2t_model`
attribute is absent this raises `AttributeError`, which the endpoint catches
and returns as an error response (HTTP 500) with the slot left unchanged;
if the attribute is present the handle is released and the slot is cleared. -/
def unload_model_i2t (st : ImgenieI2TSlot) : ImgenieI2TSlot × Resp :=
  match st.i2t_model with
  | none => (st, Resp.ok "Model unloaded")
  | some d =>
    match d.i2t_model with
    | none => (st, Resp.err "ImageDescriber object has no attribute i2t_model")
    | some _ => (⟨none, none⟩, Resp.ok "Model unloaded")

/-- C3 counterexample: after a failed image-to-text load from the empty
slot (reachable: the describer object is installed but its model attribute
is never set), the unload endpoint returns an error response — the
`AttributeError` raised by the release step is propagated to the caller —
and the slot keeps its describer object instead of converging to Empty.
This refutes the claim that every unload call converges the slot to Empty
and returns success. -/
theorem c3_unload_propagates_error :
    ((unload_model_i2t
        (load_model_i2t ["M"] (fun _ => none) ⟨none, none⟩ "M").1).2 =
      Resp.err "ImageDescriber object has no attribute i2t_model") ∧
    ((unload_model_i2t
        (load_model_i2t ["M"] (fun _ => none) ⟨none, none⟩ "M").1).1.i2t_model ≠ none) := by
  refine ⟨rfl, by simp [load_model_i2t, unload_model_i2t]⟩

/-- C3 amended: unload on an already-Empty slot (no describer object) is a
no-op that succeeds; when the describer holds a loaded model the slot is
cleared and the call succeeds; but when the internal release step raises
(the describer's model attribute is absent, as after a failed load), the
error is caught by the endpoint and returned to the caller as a failure
response, with the slot left unchanged rather than converging to Empty. -/
theorem c3_amended_unload (st : ImgenieI2TSlot) :
    (st.i2t_model = none → unload_model_i2t st = (st, Resp.ok "Model unloaded")) ∧
    (∀ d h, st.i2t_model = some d → d.i2t_model = some h →
      unload_model_i2t st = (⟨none, none⟩, Resp.ok "Model unloaded")) ∧
    (∀ d, st.i2t_model = some d → d.i2t_model = none →
      unload_model_i2t st =
        (st, Resp.err "ImageDescriber object has no attribute i2t_model")) := by
  refine ⟨fun he => ?_, fun d h hd hh => ?_, fun d hd hh => ?_⟩
  · simp [unload_model_i2t, he]
  · simp [unload_model_i2t, hd, hh]
  · simp [unload_model_i2t, hd, hh]

/-- Witness for `c3_amended_unload`: unload on the empty slot is a no-op
success. -/
theorem c3_amended_unload_witness :
    unload_model_i2t ⟨none, none⟩ = (⟨none, none⟩, Resp.ok "Model unloaded") :=
  (c3_amended_unload ⟨none, none⟩).1 rfl

/-- Embedding of the global `generation_progress` dict
(imgenie_server.py:370-376). -/
structure Progress where
  status : String
  progress : Nat
  step : Nat
  total_steps : Nat
  message : String
deriving DecidableEq, Repr

/-- The progress state reset at the start of a generation
(imgenie_server.py:460-466). -/
def startingProgress (steps : Nat) : Progress :=
  ⟨"starting", 0, 0, steps, "Starting..."⟩

/-- Outcome of one call to the `/api/generate` endpoint: the HTTP response,
the final progress state, and whether the backend run operation (the
diffusers pipeline call) was invoked. -/
structure GenOutcome where
  resp : Resp
  prog : Progress
  backendInvoked : Bool
deriving DecidableEq, Repr

/-- Embedding of the `/api/generate` endpoint for the text-to-image task
(imgenie_server.py:420-598) composed with `ImageGenerator.generate`
(image_generator.py:118-188).  `backendRun` is the opaque pipeline call:
`Except.ok ()` means the pipeline ran and images were saved to disk —
`ImageGenerator.generate` has no return statement, so the endpoint's
`output_image` is Python `None` on success.  Path, faithful to the source:
if no model object is loaded the call fails early (`T2I model not loaded`)
without touching progress; otherwise progress is reset to starting; an
empty prompt is rejected; `ImageGenerator.generate` raises before the
pipeline call when its `pipeline` is `None`; on backend success the
progress is set to completed/100 but `output_image` is `None`, so the
response is the error `No image generated`; on backend failure the
progress is set to failed with the message and the error is returned. -/
def generate_t2i (st : ImgenieT2ISlot) (prompt : String) (steps : Nat)
    (backendRun : Except String Unit) (prog0 : Progress) : GenOutcome :=
  match st.t2i_model with
  | none => ⟨Resp.err "T2I model not loaded", prog0, false⟩
  | some g =>
    let prog1 := startingProgress steps
    if prompt = "" then ⟨Resp.err "Prompt required", prog1, false⟩
    else
      match g.pipeline with
      | none =>
          ⟨Resp.err "Model pipeline is not loaded.",
           { prog1 with status := "failed", message := "Model pipeline is not loaded." },
           false⟩
      | some _ =>
          match backendRun with
          | Except.ok _ =>
              ⟨Resp.err "No image generated",
               { prog1 with status := "completed", progress := 100, message := "Completed" },
               true⟩
          | Except.error e =>
              ⟨Resp.err e, { prog1 with status := "failed", message := e }, true⟩

/-- C4: For every generation request whose text-to-image slot is Empty (no
model object loaded), the generate endpoint fails with the
model-not-loaded error, the backend run operation is never invoked, and
the progress state is untouched. -/
theorem c4_generate_empty_slot (prompt : String) (steps : Nat)
    (backendRun : Except String Unit) (prog0 : Progress)
    (st : ImgenieT2ISlot) (h : st.t2i_model = none) :
    generate_t2i st prompt steps backendRun prog0 =
      ⟨Resp.err "T2I model not loaded", prog0, false⟩ := by
  simp [generate_t2i, h]

/-- Witness for `c4_generate_empty_slot` at a concrete input. -/
theorem c4_generate_empty_slot_witness :
    generate_t2i ⟨none, none⟩ "a cat" 30 (Except.ok ()) ⟨"idle", 0, 0, 0, ""⟩ =
      ⟨Resp.err "T2I model not loaded", ⟨"idle", 0, 0, 0, ""⟩, false⟩ :=
  c4_generate_empty_slot "a cat" 30 (Except.ok ()) ⟨"idle", 0, 0, 0, ""⟩ ⟨none, none⟩ rfl

/-- C5: evaluation at the failing input.  With a loaded model (handle 7,
reported id `A`), a nonempty prompt and a backend run that succeeds, the
endpoint sets progress to completed with progress 100 — but, because
`ImageGenerator.generate` has no return statement, the produced artifact
is never returned: the call answers with the error `No image generated`
(HTTP 500) instead of the image. -/
theorem c5_success_returns_no_artifact :
    generate_t2i ⟨some ⟨some 7⟩, some "A"⟩ "a cat" 30 (Except.ok ()) ⟨"idle", 0, 0, 0, ""⟩ =
      ⟨Resp.err "No image generated", ⟨"completed", 100, 0, 30, "Completed"⟩, true⟩ := by
  rfl

/-- Embedding of the reference-image resize computed by
`ImageGenerator._load_reference_image` (image_generator.py:96-113) on an
input of size `w`×`h`: the image is first resized to width 720 and height
`int(720 * h / w)` (the width is forced to 720 regardless of which edge is
longer), then both dimensions are rounded down to the nearest multiple of
16. -/
def resizeRef (w h : Nat) : Nat × Nat :=
  let w1 : Nat := 720
  let h1 : Nat := 720 * h / w
  (w1 - w1 % 16, h1 - h1 % 16)

/-- C6 counterexample: a 1000×500 reference image yields 720×352, not the
claimed 720×336 (floor(720·500/1000) = 360, and 360 rounded down to a
multiple of 16 is 352).  Moreover the code scales the width — not the long
edge — to 720: a portrait 500×1000 image yields 720×1440, whose long edge
is 1440, refuting the long-edge-equals-720 rule. -/
theorem c6_resize_counterexample :
    resizeRef 1000 500 = (720, 352) ∧
    (resizeRef 1000 500).2 ≠ 336 ∧
    resizeRef 500 1000 = (720, 1440) := by
  refine ⟨rfl, by decide, rfl⟩

/-- C6 amended: for every reference image of positive width `w` and height
`h`, the output width is exactly 720 and the output height is
floor(720·h/w) rounded down to the nearest multiple of 16 — both outputs
are multiples of 16, and at most 15 pixels are lost from the scaled
height.  (The code scales the width to 720, not the long edge.) -/
theorem c6_amended_resize (w h : Nat) (hw : 0 < w) :
    (resizeRef w h).1 = 720 ∧
    (resizeRef w h).1 % 16 = 0 ∧
    (resizeRef w h).2 % 16 = 0 ∧
    720 * h / w - 15 ≤ (resizeRef w h).2 ∧
    (resizeRef w h).2 ≤ 720 * h / w := by
  have hq : resizeRef w h = (720 - 720 % 16, 720 * h / w - (720 * h / w) % 16) := rfl
  rw [hq]
  generalize 720 * h / w = q
  refine ⟨by norm_num, by norm_num, ?_, ?_, ?_⟩ <;> omega

/-- Witness for `c6_amended_resize` at the 1000×500 reference image. -/
theorem c6_amended_resize_witness :
    (resizeRef 1000 500).1 = 720 ∧
    (resizeRef 1000 500).1 % 16 = 0 ∧
    (resizeRef 1000 500).2 % 16 = 0 ∧
    720 * 500 / 1000 - 15 ≤ (resizeRef 1000 500).2 ∧
    (resizeRef 1000 500).2 ≤ 720 * 500 / 1000 :=
  c6_amended_resize 1000 500 (by norm_num)

/-- The arguments of a `pipeline.set_adapters` backend call: the synthetic
positional adapter names and the `adapter_weights` argument (`none` when
Python `None` is passed through). -/
structure SetAdaptersCall where
  names : List String
  weights : Option (List ℚ)
deriving DecidableEq, Repr

/-- Embedding of `ImageGenerator.load_loras` (image_generator.py:65-94):
raises when no pipeline is loaded; with an empty adapter list it only
unloads the previous adapters and makes no `set_adapters` call; otherwise
each adapter is loaded under the synthetic name `adapter_i` and
`set_adapters` is called with the caller-supplied `weights` argument passed
through unchanged — in particular `none` (Python `None`) when the caller
supplies no weights; no 1/N default is computed here. -/
def imageGenerator_load_loras (pipelineLoaded : Bool) (loras : List String)
    (weights : Option (List ℚ)) : Except String (Option SetAdaptersCall) :=
  if pipelineLoaded = false then Except.error "Model pipeline is not loaded."
  else if loras = [] then Except.ok none
  else
    Except.ok (some ⟨(List.range loras.length).map (fun i => "adapter_" ++ toString i),
                     weights⟩)

/-- Embedding of `TXTxIMG._load_loras` (image_generator_lora.py:39-60):
raises when no pipeline is loaded; with an empty list the weight
computation `[1.0 / len(lora_paths)] * len(lora_paths)` raises
`ZeroDivisionError`; otherwise `set_adapters` is called with every adapter
assigned the weight 1/N.  Callers of this method cannot supply weights. -/
def txtximg_load_loras (pipelineLoaded : Bool) (lora_paths : List String) :
    Except String (Option SetAdaptersCall) :=
  if pipelineLoaded = false then Except.error "Model pipeline is not loaded."
  else if lora_paths.length = 0 then Except.error "ZeroDivisionError: division by zero"
  else
    Except.ok (some ⟨(List.range lora_paths.length).map (fun i => "adapter_" ++ toString i),
                     some (List.replicate lora_paths.length
                       (1 / (lora_paths.length : ℚ)))⟩)

/-- C7 counterexample: requesting the two adapters `A` and `B` through
`ImageGenerator.load_loras` with no explicit weights results in a
`set_adapters` call whose `adapter_weights` argument is `none` — no 1/N
weights are assigned; in particular the weights are not `[1/2, 1/2]`. -/
theorem c7_no_half_weights :
    imageGenerator_load_loras true ["A.safetensors", "B.safetensors"] none =
      Except.ok (some ⟨["adapter_0", "adapter_1"], none⟩) ∧
    (none : Option (List ℚ)) ≠ some [1/2, 1/2] := by
  refine ⟨rfl, by simp⟩

/-- C7 amended: the 1/N default holds only in the `TXTxIMG` variant: for
every nonempty adapter list, `TXTxIMG._load_loras` issues a `set_adapters`
call assigning every adapter the weight 1/N (callers of that method cannot
supply weights).  `ImageGenerator.load_loras` — the serving path — passes
the caller-supplied weights argument through unchanged instead. -/
theorem c7_amended_txtximg_weights (ps : List String) (h : 0 < ps.length) :
    txtximg_load_loras true ps =
      Except.ok (some ⟨(List.range ps.length).map (fun i => "adapter_" ++ toString i),
                       some (List.replicate ps.length (1 / (ps.length : ℚ)))⟩) := by
  have hne : ps.length ≠ 0 := Nat.pos_iff_ne_zero.mp h
  simp [txtximg_load_loras, hne]

/-- Witness for `c7_amended_txtximg_weights` with two adapters: each is
assigned the weight 1/2. -/
theorem c7_amended_txtximg_weights_witness :
    txtximg_load_loras true ["A", "B"] =
      Except.ok (some ⟨(List.range (["A", "B"].length)).map (fun i => "adapter_" ++ toString i),
                       some (List.replicate (["A", "B"].length)
                         (1 / ((["A", "B"].length : Nat) : ℚ)))⟩) :=
  c7_amended_txtximg_weights ["A", "B"] (by decide)

/-- One requested adapter of the `/api/generate` endpoint: its category
(`character` or `concept`), its name, and its weight. -/
structure LoraReq where
  ltype : String
  lname : String
  lweight : ℚ
deriving DecidableEq, Repr

/-- Path resolution of one requested adapter (imgenie_server.py:514-526):
the category base directory is taken from the model config (`none` when
unset); a request whose category has no base directory resolves to no
path. -/
def resolveLoraPath (charBase conceptBase : Option String) (r : LoraReq) : Option String :=
  if r.ltype = "character" then
    match charBase with
    | some b => some (b ++ "/" ++ r.lname ++ ".safetensors")
    | none => none
  else if r.ltype = "concept" then
    match conceptBase with
    | some b => some (b ++ "/" ++ r.lname ++ ".safetensors")
    | none => none
  else none

/-- Embedding of the adapter-collection loop of the `/api/generate`
endpoint (imgenie_server.py:514-530): requests with an empty name are
skipped, and a resolved path is included only when `os.path.exists`
(modelled by `ex`) holds — adapters whose file is missing are silently
dropped; the loop cannot fail. -/
def resolveLoras (charBase conceptBase : Option String) (ex : String → Bool) :
    List LoraReq → List (String × ℚ)
  | [] => []
  | r :: rest =>
      if r.lname = "" then resolveLoras charBase conceptBase ex rest
      else
        match resolveLoraPath charBase conceptBase r with
        | some p =>
            if ex p then (p, r.lweight) :: resolveLoras charBase conceptBase ex rest
            else resolveLoras charBase conceptBase ex rest
        | none => resolveLoras charBase conceptBase ex rest

/-- C8 counterexample: requesting the character adapters `A` and `B` when
only the file for `A` exists on disk yields the composition `[A]`: the
missing adapter `B` is silently skipped, the remaining adapter is applied,
and no error is produced (the resolution loop has no failure outcome) —
refuting the claim that the whole composition is rejected with
AdapterNotFound. -/
theorem c8_missing_adapter_skipped :
    resolveLoras (some "/loras/characters") none
      (fun s => s = "/loras/characters/A.safetensors")
      [⟨"character", "A", 1⟩, ⟨"character", "B", 1⟩] =
      [("/loras/characters/A.safetensors", 1)] ∧
    [("/loras/characters/A.safetensors", (1 : ℚ))] ≠ [] := by
  refine ⟨rfl, by simp⟩

/-- C8 amended: every adapter path passed on to `load_loras` exists on
disk, and adapters whose resolved path does not exist (or whose category
base path is unset, or whose name is empty) are silently dropped from the
composition; the remaining adapters are applied and no error is reported. -/
theorem c8_amended_only_existing (charBase conceptBase : Option String)
    (ex : String → Bool) (rs : List LoraReq) (p : String) (w : ℚ)
    (h : (p, w) ∈ resolveLoras charBase conceptBase ex rs) :
    ex p = true := by
  induction rs with
  | nil => simp [resolveLoras] at h
  | cons r rest ih =>
      by_cases hn : r.lname = ""
      · rw [resolveLoras, if_pos hn] at h
        exact ih h
      · rw [resolveLoras, if_neg hn] at h
        cases hp : resolveLoraPath charBase conceptBase r with
        | some q =>
            simp only [hp] at h
            by_cases he : ex q
            · rw [if_pos he] at h
              rcases List.mem_cons.mp h with heq | hmem
              · have : p = q := congrArg Prod.fst heq
                rw [this]
                exact he
              · exact ih hmem
            · rw [if_neg he] at h
              exact ih h
        | none =>
            simp only [hp] at h
            exact ih h

/-- Witness for `c8_amended_only_existing`: the adapter `A` included in the
composition of the counterexample scenario does exist on disk. -/
theorem c8_amended_only_existing_witness :
    (fun s => decide (s = "/loras/characters/A.safetensors"))
      "/loras/characters/A.safetensors" = true :=
  c8_amended_only_existing (some "/loras/characters") none
    (fun s => decide (s = "/loras/characters/A.safetensors"))
    [⟨"character", "A", 1⟩, ⟨"character", "B", 1⟩]
    "/loras/characters/A.safetensors" 1 (by simp [resolveLoras, resolveLoraPath])

/-- The generation mode selected by `ImageGenerator.generate`
(image_generator.py:144-179): image-conditioned generation at dimensions
derived from the resized reference image, or text-to-image generation at
the requested dimensions. -/
inductive GenMode
  | img2img (w h : Nat)
  | txt2img (w h : Nat)
deriving DecidableEq, Repr

/-- Embedding of the branch selection of `ImageGenerator.generate`
(image_generator.py:144-179): raises when no pipeline is loaded; the
reference image is used only when a path is supplied, is nonempty (Python
truthiness) and `os.path.exists` holds for it — otherwise the call
silently falls back to text-to-image at the requested width and height.
`refW`/`refH` are the on-disk dimensions of the reference image when it
exists. -/
def imageGenerator_generate_mode (pipelineLoaded : Bool) (ref_image_path : Option String)
    (ex : String → Bool) (refW refH : Nat) (width height : Nat) :
    Except String GenMode :=
  if pipelineLoaded = false then Except.error "Model pipeline is not loaded."
  else
    match ref_image_path with
    | some p =>
        if p ≠ "" ∧ ex p = true then
          Except.ok (GenMode.img2img (resizeRef refW refH).1 (resizeRef refW refH).2)
        else Except.ok (GenMode.txt2img width height)
    | none => Except.ok (GenMode.txt2img width height)

/-- C10: for every generate call on a loaded pipeline that supplies a
nonempty reference-image path naming a file that does not exist, no
missing-file error is reported: the call silently ignores the reference
image and produces a text-to-image generation at the requested width and
height. -/
theorem c10_missing_ref_image_ignored (ex : String → Bool) (refW refH width height : Nat)
    (p : String) (h1 : p ≠ "") (h2 : ex p = false) :
    imageGenerator_generate_mode true (some p) ex refW refH width height =
      Except.ok (GenMode.txt2img width height) := by
  simp [imageGenerator_generate_mode, h1, h2]

/-- Witness for `c10_missing_ref_image_ignored`: a nonexistent upload path
on a loaded pipeline yields text-to-image at the requested 720×720. -/
theorem c10_missing_ref_image_ignored_witness :
    imageGenerator_generate_mode true (some "/tmp/imgenie_uploads/ref_missing.png")
      (fun _ => false) 1000 500 720 720 = Except.ok (GenMode.txt2img 720 720) :=
  c10_missing_ref_image_ignored (fun _ => false) 1000 500 720 720
    "/tmp/imgenie_uploads/ref_missing.png" (by simp) rfl

/-- The observable state of one in-flight `/api/generate` request in the
threaded Flask server (imgenie_server.py:702 runs with `threaded=True` and
no per-slot lock): `pc` is the program counter over the request's phases
(0 = about to check the slot, 1 = about to invoke the backend, 2 = about to
build the response, 3 = done), `resp` the response once produced, and
`invoked` whether the backend run operation was invoked. -/
structure ReqT where
  pc : Nat
  resp : Option Resp
  invoked : Bool
deriving DecidableEq, Repr

/-- The initial state of a request. -/
def reqInit : ReqT := ⟨0, none, false⟩

/-- One atomic step of a request against a slot whose loaded flag is
`slotLoaded`, following the endpoint code: the slot check either rejects
with the not-loaded error or proceeds; the backend is then invoked; the
response is then built (the backend succeeds and, the artifact being
`None`, the endpoint answers `No image generated`).  The code consults no
in-flight flag and no lock: nothing another request does changes any of
these steps. -/
def stepReq (slotLoaded : Bool) (r : ReqT) : ReqT :=
  if r.pc = 0 then
    if slotLoaded then ⟨1, r.resp, r.invoked⟩
    else ⟨3, some (Resp.err "T2I model not loaded"), r.invoked⟩
  else if r.pc = 1 then ⟨2, r.resp, true⟩
  else if r.pc = 2 then ⟨3, some (Resp.err "No image generated"), r.invoked⟩
  else r

/-- Run two concurrent requests under a schedule: `true` steps the first
request, `false` the second.  The slot's loaded flag is shared and never
written by either request. -/
def runSched (slotLoaded : Bool) : List Bool → ReqT × ReqT → ReqT × ReqT
  | [], s => s
  | b :: rest, s =>
      if b then runSched slotLoaded rest (stepReq slotLoaded s.1, s.2)
      else runSched slotLoaded rest (s.1, stepReq slotLoaded s.2)

/-- The states reachable by one request against a loaded slot. -/
def reqReach (r : ReqT) : Prop :=
  r = ⟨0, none, false⟩ ∨ r = ⟨1, none, false⟩ ∨ r = ⟨2, none, true⟩ ∨
    r = ⟨3, some (Resp.err "No image generated"), true⟩

theorem stepReq_reach {r : ReqT} (h : reqReach r) : reqReach (stepReq true r) := by
  rcases h with h | h | h | h <;> rw [h] <;> simp [reqReach, stepReq]

theorem runSched_reach (sched : List Bool) (s : ReqT × ReqT)
    (h1 : reqReach s.1) (h2 : reqReach s.2) :
    reqReach (runSched true sched s).1 ∧ reqReach (runSched true sched s).2 := by
  induction sched generalizing s with
  | nil => exact ⟨h1, h2⟩
  | cons b rest ih =>
      cases b with
      | true =>
          simpa [runSched] using ih (stepReq true s.1, s.2) (stepReq_reach h1) h2
      | false =>
          simpa [runSched] using ih (s.1, stepReq true s.2) h1 (stepReq_reach h2)

theorem reqReach_done {r : ReqT} (h : reqReach r) (hpc : r.pc = 3) :
    r.invoked = true ∧ r.resp = some (Resp.err "No image generated") := by
  rcases h with h | h | h | h <;> rw [h] at hpc ⊢ <;> simp_all

/-- C9 counterexample: two generate requests interleaved step by step
against the same loaded slot both proceed to invoke the backend and both
complete with the same (non-Busy) response — refuting the claim that
exactly one proceeds while the other fails immediately with Busy. -/
theorem c9_both_requests_proceed :
    ((runSched true [true, false, true, false, true, false]
        (reqInit, reqInit)).1.invoked = true) ∧
    ((runSched true [true, false, true, false, true, false]
        (reqInit, reqInit)).2.invoked = true) ∧
    ((runSched true [true, false, true, false, true, false]
        (reqInit, reqInit)).1.resp = some (Resp.err "No image generated")) ∧
    ((runSched true [true, false, true, false, true, false]
        (reqInit, reqInit)).2.resp = some (Resp.err "No image generated")) := by
  refine ⟨rfl, rfl, rfl, rfl⟩

/-- C9 amended: under every interleaving of two concurrent generate calls
against the same loaded slot, every request that runs to completion has
invoked the backend, and its response is the ordinary completion response —
never Busy: the server has no Busy error and no per-slot mutual exclusion,
so both calls proceed. -/
theorem c9_amended_no_busy (sched : List Bool) :
    ((runSched true sched (reqInit, reqInit)).1.pc = 3 →
       (runSched true sched (reqInit, reqInit)).1.invoked = true ∧
       (runSched true sched (reqInit, reqInit)).1.resp =
         some (Resp.err "No image generated")) ∧
    ((runSched true sched (reqInit, reqInit)).2.pc = 3 →
       (runSched true sched (reqInit, reqInit)).2.invoked = true ∧
       (runSched true sched (reqInit, reqInit)).2.resp =
         some (Resp.err "No image generated")) := by
  have hinit : reqReach reqInit := Or.inl rfl
  have h := runSched_reach sched (reqInit, reqInit) hinit hinit
  exact ⟨fun hpc => reqReach_done h.1 hpc, fun hpc => reqReach_done h.2 hpc⟩

/-- Witness for `c9_amended_no_busy` at a schedule completing both
requests. -/
theorem c9_amended_no_busy_witness :
    ((runSched true [true, true, true, false, false, false]
        (reqInit, reqInit)).1.invoked = true ∧
     (runSched true [true, true, true, false, false, false]
        (reqInit, reqInit)).1.resp = some (Resp.err "No image generated")) ∧
    ((runSched true [true, true, true, false, false, false]
        (reqInit, reqInit)).2.invoked = true ∧
     (runSched true [true, true, true, false, false, false]
        (reqInit, reqInit)).2.resp = some (Resp.err "No image generated")) :=
  ⟨(c9_amended_no_busy [true, true, true, false, false, false]).1 rfl,
   (c9_amended_no_busy [true, true, true, false, false, false]).2 rfl⟩
